import Mathlib

/-!
Verification of the FUN-ID OAuth 2.0 / OIDC worker (soul-spark-web3).

This file gives a shallow embedding of the OAuth endpoints implemented in
src/worker/src/oauth/token.ts, authorize.ts, userinfo.ts and
src/worker/src/utils/pkce.ts, and proves properties of the embedded code.

Modelling conventions:
- The Supabase persistence layer is modelled as an explicit `Store` record of
  row lists; each REST call from the source becomes a pure function on the
  store.  Transient network failure of an individual call is modelled by a
  boolean fault flag in the per-request environment `Env` (a non-ok HTTP
  response makes the helper return `none` / `false`, exactly as the source
  treats `!response.ok`).
- External cryptography (Web Crypto SHA-256, JWT signing, bcrypt-style secret
  verification, the random token generator) is modelled by oracle fields of
  `Env`; JWTs are represented by their claim payloads.
- JavaScript string truthiness (`if (x)` on a `string | null | undefined`)
  is modelled by `strTruthy` on `Option String`; absent request parameters
  are modelled as `""` because the source only ever tests them with `!x`,
  which identifies `undefined` and `""`.
- Timestamps are `Nat` milliseconds; `new Date(r.expires_at) < new Date()`
  becomes `r.expires_at < env.now`.
-/

-- ========== src/worker/src/utils/pkce.ts ==========

/-- Standard base64 alphabet used by btoa, indexed by 6-bit value. -/
def b64Alphabet : List Char :=
  "ABCDEFGHIJKLMNOPQRSTUVWXYZabcdefghijklmnopqrstuvwxyz0123456789+/".data

/-- Character of the standard base64 alphabet for a 6-bit value. -/
def b64Char (n : Nat) : Char := b64Alphabet.getD n 'A'

/-- Base64 encoding of a byte list, grouped three bytes into four symbols with
trailing padding, exactly as btoa produces on the binary string built by
base64UrlEncode in pkce.ts. -/
def btoaGroups : List Nat → List Char
  | [] => []
  | [a] => [b64Char (a / 4), b64Char (a % 4 * 16), '=', '=']
  | [a, b] => [b64Char (a / 4), b64Char (a % 4 * 16 + b / 16), b64Char (b % 16 * 4), '=']
  | a :: b :: c :: rest =>
      b64Char (a / 4) :: b64Char (a % 4 * 16 + b / 16) ::
      b64Char (b % 16 * 4 + c / 64) :: b64Char (c % 64) :: btoaGroups rest

/-- Character replacement performed by base64UrlEncode: plus becomes dash and
slash becomes underscore. -/
def b64UrlReplace (c : Char) : Char :=
  if c = '+' then '-' else if c = '/' then '_' else c

/-- Removal of the trailing padding, the replace of the pattern
eq-plus-dollar in base64UrlEncode. -/
def stripTrailingPad (l : List Char) : List Char :=
  ((l.reverse).dropWhile (fun c => c = '=')).reverse

/-- base64UrlEncode from pkce.ts: btoa of the byte string, then the plus and
slash replacements, then dropping trailing padding. -/
def base64UrlEncode (bytes : List Nat) : String :=
  String.mk (stripTrailingPad ((btoaGroups bytes).map b64UrlReplace))

/-- Membership in the RFC 7636 code-verifier character class
A-Z, a-z, 0-9, dash, dot, underscore, tilde. -/
def isVerifierChar (c : Char) : Bool :=
  ('A' ≤ c && c ≤ 'Z') || ('a' ≤ c && c ≤ 'z') || ('0' ≤ c && c ≤ '9') ||
  c = '-' || c = '.' || c = '_' || c = '~'

/-- The code-verifier format test of verifyPKCE: the anchored regex
requiring 43 to 128 characters of the verifier class. -/
def isValidCodeVerifier (s : String) : Bool :=
  43 ≤ s.length && s.length ≤ 128 && s.data.all isVerifierChar

/-- isValidCodeChallenge from pkce.ts: exactly 43 base64url characters. -/
def isValidCodeChallenge (s : String) : Bool :=
  s.length = 43 && s.data.all (fun c =>
    ('A' ≤ c && c ≤ 'Z') || ('a' ≤ c && c ≤ 'z') || ('0' ≤ c && c ≤ '9') ||
    c = '-' || c = '_')

/-- secureCompare from pkce.ts: reject on length mismatch, then accumulate
the XOR of every character pair with bitwise OR and test the accumulator
against zero. -/
def secureCompare (a b : String) : Bool :=
  if a.length ≠ b.length then false
  else ((List.zipWith (fun x y : Char => x.toNat ^^^ y.toNat) a.data b.data).foldl
          (fun r v => r ||| v) 0) == 0

/-- verifyPKCE from pkce.ts.  The SHA-256 digest is an oracle argument
(`sha`), since the Web Crypto primitive is outside the repository; everything
else mirrors the source: only the S256 method is accepted, the verifier must
match the RFC 7636 regex, and the recomputed challenge is compared to the
presented one with secureCompare. -/
def verifyPKCE (sha : String → List Nat) (codeVerifier codeChallenge method : String) : Bool :=
  if method ≠ "S256" then false
  else if ¬ isValidCodeVerifier codeVerifier then false
  else secureCompare (base64UrlEncode (sha codeVerifier)) codeChallenge

-- ========== Data model (src/worker/src/oauth/types.ts) ==========

/-- JavaScript truthiness of a nullable string: null, undefined and the empty
string are falsy. -/
def strTruthy : Option String → Bool
  | none => false
  | some s => s ≠ ""

/-- Value of a nullable string under the JavaScript or-default idiom
x or-else d, which replaces both null and the empty string. -/
def strOrDefault (x : Option String) (d : String) : String :=
  match x with
  | none => d
  | some s => if s = "" then d else s

/-- Split of a character list at every space, the semantics of the
JavaScript split on a single-space separator: empty pieces are kept and the
empty input yields one empty piece. -/
def splitCharsOnSpace : List Char → List (List Char)
  | [] => [[]]
  | c :: rest =>
      let r := splitCharsOnSpace rest
      if c = ' ' then [] :: r
      else
        match r with
        | [] => [[c]]
        | h :: t => (c :: h) :: t

/-- The JavaScript scope.split of the source on a single space. -/
def splitOnSpace (s : String) : List String :=
  (splitCharsOnSpace s.data).map String.mk

/-- AuthorizationCode row of oauth_authorization_codes (types.ts). -/
structure AuthorizationCode where
  id : String
  code : String
  client_id : String
  user_id : String
  redirect_uri : String
  scope : String
  code_challenge : Option String
  code_challenge_method : Option String
  state : Option String
  nonce : Option String
  expires_at : Nat
  used : Bool
  created_at : Nat
deriving DecidableEq, Repr

/-- OAuthClient row of oauth_clients (types.ts). -/
structure OAuthClient where
  id : String
  client_id : String
  client_name : String
  client_secret_hash : String
  redirect_uris : List String
  scopes : List String
  grant_types : List String
  is_active : Bool
  is_confidential : Bool
  logo_uri : Option String
  client_uri : Option String
deriving DecidableEq, Repr

/-- RefreshTokenRecord row of oauth_refresh_tokens (types.ts). -/
structure RefreshTokenRecord where
  id : String
  token_hash : String
  user_id : String
  client_id : String
  scope : String
  expires_at : Nat
  revoked : Bool
  revoked_at : Option Nat
  created_at : Nat
deriving DecidableEq, Repr

/-- UserProfile row of profiles (types.ts). -/
structure UserProfile where
  id : String
  display_name : Option String
  avatar_url : Option String
  bio : Option String
  wallet_address : Option String
  camly_balance : Option Int
deriving DecidableEq, Repr

/-- The rows held by the Supabase persistence layer, plus the auth.users
email map served by the admin endpoint (user id paired with email; the empty
string stands for a missing email, matching the user.email-or-null read). -/
structure Store where
  authCodes : List AuthorizationCode
  refreshTokens : List RefreshTokenRecord
  clients : List OAuthClient
  profiles : List UserProfile
  emails : List (String × String)
deriving DecidableEq, Repr

/-- TOKEN_EXPIRY constants from types.ts, in seconds. -/
def ACCESS_TOKEN_EXPIRY : Nat := 3600

/-- Refresh token lifetime from types.ts, in seconds. -/
def REFRESH_TOKEN_EXPIRY : Nat := 30 * 24 * 3600

/-- Authorization code lifetime from types.ts, in seconds. -/
def AUTHORIZATION_CODE_EXPIRY : Nat := 600

/-- SUPPORTED_SCOPES from types.ts. -/
def SUPPORTED_SCOPES : List String := ["openid", "profile", "email", "wallet"]

/-- Per-request environment: the clock, the cryptography oracles standing for
the external Web Crypto and jose primitives, the random values drawn during
the request, and one fault flag per persistence-layer call, a true flag
meaning the corresponding HTTP call returns a non-ok response. -/
structure Env where
  now : Nat
  sha256 : String → List Nat
  hashToken : String → String
  verifyClientSecret : String → String → Bool
  freshRefreshToken : String
  freshAuthCode : String
  freshId : String
  getCodeFails : Bool
  markUsedFails : Bool
  getClientFails : Bool
  getProfileFails : Bool
  getEmailFails : Bool
  storeRefreshFails : Bool
  getRefreshFails : Bool
  revokeFails : Bool
  storeCodeFails : Bool

-- ========== Database helpers (src/worker/src/oauth/token.ts) ==========

/-- getAuthorizationCode from token.ts: the REST query filters on code
equality and used equal false and takes the first row; a non-ok response
yields null. -/
def getAuthorizationCode (code : String) (st : Store) (fail : Bool) :
    Option AuthorizationCode :=
  if fail then none
  else (st.authCodes.filter (fun r => r.code = code && r.used = false)).head?

/-- markCodeAsUsed from token.ts: a PATCH setting used to true on every row
whose code matches — the filter is only code equality, with no used = false
condition — and the returned boolean is just response.ok, independent of how
many rows were affected. -/
def markCodeAsUsed (code : String) (st : Store) (fail : Bool) : Bool × Store :=
  if fail then (false, st)
  else (true,
    { st with authCodes :=
        st.authCodes.map (fun r => if r.code = code then { r with used := true } else r) })

/-- getClient shared by token.ts and authorize.ts: first active client with
the given client_id, null on a non-ok response. -/
def getClient (clientId : String) (st : Store) (fail : Bool) : Option OAuthClient :=
  if fail then none
  else (st.clients.filter (fun c => c.client_id = clientId && c.is_active = true)).head?

/-- getUserProfile shared by token.ts and userinfo.ts: first profile row with
the given id, null on a non-ok response. -/
def getUserProfile (userId : String) (st : Store) (fail : Bool) : Option UserProfile :=
  if fail then none
  else (st.profiles.filter (fun p => p.id = userId)).head?

/-- getUserEmail shared by token.ts and userinfo.ts: the admin user record
for the id, with user.email-or-null collapsing a missing or empty email to
null; a non-ok response also yields null. -/
def getUserEmail (userId : String) (st : Store) (fail : Bool) : Option String :=
  if fail then none
  else match (st.emails.filter (fun p => p.1 = userId)).head? with
    | none => none
    | some p => if p.2 = "" then none else some p.2

/-- storeRefreshToken from token.ts: inserts a fresh unrevoked row expiring
REFRESH_TOKEN seconds from now and reports response.ok. -/
def storeRefreshToken (tokenHash userId clientId scope : String) (env : Env)
    (st : Store) : Bool × Store :=
  if env.storeRefreshFails then (false, st)
  else (true,
    { st with refreshTokens := st.refreshTokens ++
        [{ id := env.freshId
           token_hash := tokenHash
           user_id := userId
           client_id := clientId
           scope := scope
           expires_at := env.now + REFRESH_TOKEN_EXPIRY * 1000
           revoked := false
           revoked_at := none
           created_at := env.now }] })

/-- getRefreshTokenRecord from token.ts: the REST query filters on token_hash
equality and revoked equal false and takes the first row; non-ok gives
null. -/
def getRefreshTokenRecord (tokenHash : String) (st : Store) (fail : Bool) :
    Option RefreshTokenRecord :=
  if fail then none
  else (st.refreshTokens.filter (fun r => r.token_hash = tokenHash && r.revoked = false)).head?

/-- revokeRefreshToken from token.ts: a PATCH setting revoked and revoked_at
on every row whose token_hash matches, reporting response.ok. -/
def revokeRefreshToken (tokenHash : String) (env : Env) (st : Store) : Bool × Store :=
  if env.revokeFails then (false, st)
  else (true,
    { st with refreshTokens :=
        st.refreshTokens.map (fun r =>
          if r.token_hash = tokenHash then
            { r with revoked := true, revoked_at := some env.now }
          else r) })

-- ========== Token generation (src/worker/src/oauth/token.ts) ==========

/-- Payload passed to signAccessToken in generateTokens; the JWT wrapper
(iss, exp, iat, signature) is external crypto and the model keeps the claim
payload itself as the token. -/
structure AccessTokenClaims where
  sub : String
  aud : String
  client_id : String
  scope : String
deriving DecidableEq, Repr

/-- Claim set built for the ID token in generateTokens, kept unsigned in the
model for the same reason. -/
structure IDTokenClaims where
  sub : String
  aud : String
  nonce : Option String
  name : Option String
  picture : Option String
  email : Option String
  email_verified : Option Bool
  wallet_address : Option String
  camly_balance : Option Int
deriving DecidableEq, Repr

/-- TokenResponse from types.ts, with the two JWTs represented by their claim
payloads. -/
structure TokenResponse where
  access_token : AccessTokenClaims
  token_type : String
  expires_in : Nat
  refresh_token : String
  id_token : IDTokenClaims
  scope : String
deriving DecidableEq, Repr

/-- Result of the token endpoint: either the JSON error body with its HTTP
status produced by tokenError, or a 200 with a TokenResponse. -/
inductive TokenResult where
  | error (error description : String) (status : Nat)
  | success (tokens : TokenResponse)
deriving DecidableEq, Repr

/-- Test used to phrase fail-closed statements: whether a token endpoint
result is a success. -/
def TokenResult.isSuccess : TokenResult → Bool
  | .success _ => true
  | .error _ _ _ => false

/-- tokenError from token.ts with its default 400 status made explicit. -/
def tokenError (error description : String) (status : Nat := 400) : TokenResult :=
  .error error description status

/-- ID token claim construction from generateTokens in token.ts: start from
sub and aud, add the nonce when truthy, then gate name and picture on the
profile scope, email and email_verified on the email scope, and
wallet_address and camly_balance on the wallet scope, each addition guarded
by JavaScript truthiness except the strict null test on camly_balance. -/
def buildIDTokenClaims (userId clientId scope : String) (nonce : Option String)
    (env : Env) (st : Store) : IDTokenClaims :=
  let scopes := splitOnSpace scope
  let profile := getUserProfile userId st env.getProfileFails
  let claims0 : IDTokenClaims :=
    { sub := userId, aud := clientId, nonce := none, name := none, picture := none
      email := none, email_verified := none, wallet_address := none, camly_balance := none }
  let claims1 := if strTruthy nonce then { claims0 with nonce := nonce } else claims0
  let claims2 :=
    match profile with
    | some p =>
        if scopes.contains "profile" then
          let c := claims1
          let c := if strTruthy p.display_name then { c with name := p.display_name } else c
          if strTruthy p.avatar_url then { c with picture := p.avatar_url } else c
        else claims1
    | none => claims1
  let claims3 :=
    if scopes.contains "email" then
      match getUserEmail userId st env.getEmailFails with
      | some e => { claims2 with email := some e, email_verified := some true }
      | none => claims2
    else claims2
  match profile with
  | some p =>
      if scopes.contains "wallet" then
        let c := claims3
        let c := if strTruthy p.wallet_address then
            { c with wallet_address := p.wallet_address } else c
        match p.camly_balance with
        | some v => { c with camly_balance := some v }
        | none => c
      else claims3
  | none => claims3

/-- generateTokens from token.ts: fetch the profile, build the access token
payload and the scope-gated ID token claims, draw a fresh refresh token,
store its hash, and fail with null when the store insert does not
succeed. -/
def generateTokens (userId clientId scope : String) (nonce : Option String)
    (env : Env) (st : Store) : Option (TokenResponse × Store) :=
  let accessToken : AccessTokenClaims :=
    { sub := userId, aud := clientId, client_id := clientId, scope := scope }
  let idClaims := buildIDTokenClaims userId clientId scope nonce env st
  let refreshToken := env.freshRefreshToken
  let refreshTokenHash := env.hashToken refreshToken
  match storeRefreshToken refreshTokenHash userId clientId scope env st with
  | (false, _) => none
  | (true, st1) =>
      some ({ access_token := accessToken
              token_type := "Bearer"
              expires_in := ACCESS_TOKEN_EXPIRY
              refresh_token := refreshToken
              id_token := idClaims
              scope := scope }, st1)

-- ========== Grant handlers (src/worker/src/oauth/token.ts) ==========

/-- Parameters of a token request, as the source destructures them from the
parsed form or JSON body.  A missing parameter is modelled by the empty
string, which the source cannot distinguish from an absent one since every
test on these fields is JavaScript falsiness. -/
structure TokenParams where
  code : String
  redirect_uri : String
  client_id : String
  client_secret : String
  code_verifier : String
  refresh_token : String
deriving DecidableEq, Repr

/-- Final stage of handleAuthorizationCodeGrant in token.ts: the
client-secret verification for confidential clients, then the mark-as-used
PATCH whose result is not inspected, then token generation.  The handler is
split into stages mirroring the sequential sections of the source
function. -/
def authCodeGrantIssue (p : TokenParams) (env : Env) (st : Store)
    (authCode : AuthorizationCode) (client : OAuthClient) : TokenResult × Store :=
  if client.is_confidential ∧ p.client_secret = "" then
    (tokenError "invalid_client" "Missing client_secret for confidential client", st)
  else if client.is_confidential ∧
      ¬ env.verifyClientSecret p.client_secret client.client_secret_hash then
    (tokenError "invalid_client" "Invalid client_secret", st)
  else
    match generateTokens authCode.user_id authCode.client_id authCode.scope
        authCode.nonce env (markCodeAsUsed p.code st env.markUsedFails).2 with
    | none => (tokenError "server_error" "Failed to generate tokens" 500,
               (markCodeAsUsed p.code st env.markUsedFails).2)
    | some (tokens, st2) => (.success tokens, st2)

/-- Middle stage of handleAuthorizationCodeGrant in token.ts: the checks on
the loaded code record, expiry first (marking the code used as a side
effect), then client_id and redirect_uri binding, the stored challenge, PKCE,
and the client lookup. -/
def authCodeGrantValidate (p : TokenParams) (env : Env) (st : Store)
    (authCode : AuthorizationCode) : TokenResult × Store :=
  if authCode.expires_at < env.now then
    (tokenError "invalid_grant" "Authorization code has expired",
     (markCodeAsUsed p.code st env.markUsedFails).2)
  else if authCode.client_id ≠ p.client_id then
    (tokenError "invalid_grant" "client_id does not match authorization code", st)
  else if authCode.redirect_uri ≠ p.redirect_uri then
    (tokenError "invalid_grant" "redirect_uri does not match authorization code", st)
  else if ¬ strTruthy authCode.code_challenge then
    (tokenError "invalid_grant" "Authorization code missing code_challenge", st)
  else if ¬ verifyPKCE env.sha256 p.code_verifier
      (authCode.code_challenge.getD "")
      (strOrDefault authCode.code_challenge_method "S256") then
    (tokenError "invalid_grant" "PKCE verification failed", st)
  else
    match getClient p.client_id st env.getClientFails with
    | none => (tokenError "invalid_client" "Client not found", st)
    | some client => authCodeGrantIssue p env st authCode client

/-- handleAuthorizationCodeGrant from token.ts, threading the store through
every persistence call: required-parameter checks, then the code lookup,
then the staged validation above. -/
def handleAuthorizationCodeGrant (p : TokenParams) (env : Env) (st : Store) :
    TokenResult × Store :=
  if p.code = "" then (tokenError "invalid_request" "Missing code parameter", st)
  else if p.redirect_uri = "" then
    (tokenError "invalid_request" "Missing redirect_uri parameter", st)
  else if p.client_id = "" then
    (tokenError "invalid_request" "Missing client_id parameter", st)
  else if p.code_verifier = "" then
    (tokenError "invalid_request" "Missing code_verifier parameter (PKCE required)", st)
  else
    match getAuthorizationCode p.code st env.getCodeFails with
    | none => (tokenError "invalid_grant" "Invalid or expired authorization code", st)
    | some authCode => authCodeGrantValidate p env st authCode

/-- Final stage of handleRefreshTokenGrant in token.ts: the client-secret
verification, then the revoke PATCH on the presented token (result not
inspected) followed by token generation.  The tokenHash local of the source
is the pure expression env.hashToken p.refresh_token. -/
def refreshGrantIssue (p : TokenParams) (env : Env) (st : Store)
    (tokenRecord : RefreshTokenRecord) (client : OAuthClient) : TokenResult × Store :=
  if client.is_confidential ∧ p.client_secret = "" then
    (tokenError "invalid_client" "Missing client_secret for confidential client", st)
  else if client.is_confidential ∧
      ¬ env.verifyClientSecret p.client_secret client.client_secret_hash then
    (tokenError "invalid_client" "Invalid client_secret", st)
  else
    match generateTokens tokenRecord.user_id tokenRecord.client_id
        tokenRecord.scope none env
        (revokeRefreshToken (env.hashToken p.refresh_token) env st).2 with
    | none => (tokenError "server_error" "Failed to generate tokens" 500,
               (revokeRefreshToken (env.hashToken p.refresh_token) env st).2)
    | some (tokens, st2) => (.success tokens, st2)

/-- Middle stage of handleRefreshTokenGrant in token.ts: expiry (revoking as
a side effect), client_id binding, and the client lookup. -/
def refreshGrantValidate (p : TokenParams) (env : Env) (st : Store)
    (tokenRecord : RefreshTokenRecord) : TokenResult × Store :=
  if tokenRecord.expires_at < env.now then
    (tokenError "invalid_grant" "Refresh token has expired",
     (revokeRefreshToken (env.hashToken p.refresh_token) env st).2)
  else if tokenRecord.client_id ≠ p.client_id then
    (tokenError "invalid_grant" "client_id does not match refresh token", st)
  else
    match getClient p.client_id st env.getClientFails with
    | none => (tokenError "invalid_client" "Client not found", st)
    | some client => refreshGrantIssue p env st tokenRecord client

/-- handleRefreshTokenGrant from token.ts: required-parameter checks, the
hash lookup of the presented token, then the staged validation above. -/
def handleRefreshTokenGrant (p : TokenParams) (env : Env) (st : Store) :
    TokenResult × Store :=
  if p.refresh_token = "" then
    (tokenError "invalid_request" "Missing refresh_token parameter", st)
  else if p.client_id = "" then
    (tokenError "invalid_request" "Missing client_id parameter", st)
  else
    match getRefreshTokenRecord (env.hashToken p.refresh_token) st env.getRefreshFails with
    | none => (tokenError "invalid_grant" "Invalid or expired refresh token", st)
    | some tokenRecord => refreshGrantValidate p env st tokenRecord

-- ========== Authorization endpoint (src/worker/src/oauth/authorize.ts) ==========

/-- Query parameters of GET /oauth/authorize as url.searchParams.get returns
them: null when absent. -/
structure AuthorizeQuery where
  response_type : Option String
  client_id : Option String
  redirect_uri : Option String
  scope : Option String
  state : Option String
  code_challenge : Option String
  code_challenge_method : Option String
  nonce : Option String
deriving DecidableEq, Repr

/-- Validated parameter record built by validateAuthorizeRequest. -/
structure AuthorizeRequest where
  response_type : String
  client_id : String
  redirect_uri : String
  scope : String
  state : String
  code_challenge : String
  code_challenge_method : String
  nonce : Option String
deriving DecidableEq, Repr

/-- Outcome of validateAuthorizeRequest: the validated parameters or an error
code with its description. -/
inductive AuthorizeValidation where
  | ok (params : AuthorizeRequest)
  | invalid (error errorUri : String)
deriving DecidableEq, Repr

/-- validateAuthorizeRequest from authorize.ts: reads the query parameters
(scope falling back to openid when absent or empty) and applies the checks in
source order — missing response_type, response_type other than code, missing
client_id, redirect_uri, state, code_challenge, a code_challenge_method other
than S256, and a malformed code_challenge. -/
def validateAuthorizeRequest (u : AuthorizeQuery) : AuthorizeValidation :=
  let scope := strOrDefault u.scope "openid"
  if ¬ strTruthy u.response_type then
    .invalid "invalid_request" "Missing response_type parameter"
  else if u.response_type.getD "" ≠ "code" then
    .invalid "unsupported_response_type" "Only response_type=code is supported"
  else if ¬ strTruthy u.client_id then
    .invalid "invalid_request" "Missing client_id parameter"
  else if ¬ strTruthy u.redirect_uri then
    .invalid "invalid_request" "Missing redirect_uri parameter"
  else if ¬ strTruthy u.state then
    .invalid "invalid_request" "Missing state parameter (required for CSRF protection)"
  else if ¬ strTruthy u.code_challenge then
    .invalid "invalid_request" "Missing code_challenge parameter (PKCE is required)"
  else if strTruthy u.code_challenge_method ∧ u.code_challenge_method.getD "" ≠ "S256" then
    .invalid "invalid_request" "Only S256 code_challenge_method is supported"
  else if ¬ isValidCodeChallenge (u.code_challenge.getD "") then
    .invalid "invalid_request" "Invalid code_challenge format"
  else
    .ok { response_type := u.response_type.getD ""
          client_id := u.client_id.getD ""
          redirect_uri := u.redirect_uri.getD ""
          scope := scope
          state := u.state.getD ""
          code_challenge := u.code_challenge.getD ""
          code_challenge_method := strOrDefault u.code_challenge_method "S256"
          nonce := if strTruthy u.nonce then u.nonce else none }

/-- validateScopes from authorize.ts: split on spaces, drop empty pieces,
keep only SUPPORTED_SCOPES. -/
def validateScopes (requestedScopes : String) : List String :=
  ((splitOnSpace requestedScopes).filter (fun s => s ≠ "")).filter
    (fun s => SUPPORTED_SCOPES.contains s)

/-- Result of GET /oauth/authorize: a direct JSON error with status, an error
delivered by 302 redirect to the redirect_uri (authorizationError), or the
302 redirect to the frontend consent page carrying the validated
parameters.  URL assembly is abstracted to the components the source writes
into the query string. -/
inductive AuthorizeResult where
  | jsonErr (error description : String) (status : Nat)
  | redirectErr (redirectUri error description : String) (state : Option String)
  | consent (client_id client_name : String) (logo_uri : Option String)
      (scope state redirect_uri code_challenge code_challenge_method : String)
      (nonce : Option String)
deriving DecidableEq, Repr

/-- handleAuthorize from authorize.ts: validation, client lookup, exact
redirect_uri registration check, scope filtering with invalid_scope delivered
by redirect, then the consent redirect. -/
def handleAuthorize (u : AuthorizeQuery) (env : Env) (st : Store) : AuthorizeResult :=
  match validateAuthorizeRequest u with
  | .invalid e d => .jsonErr e d 400
  | .ok params =>
    match getClient params.client_id st env.getClientFails with
    | none => .jsonErr "invalid_client" "Client not found or inactive" 400
    | some client =>
      if ¬ client.redirect_uris.contains params.redirect_uri then
        .jsonErr "invalid_request" "redirect_uri not registered for this client" 400
      else
        let validScopes := validateScopes params.scope
        if validScopes.length = 0 then
          .redirectErr params.redirect_uri "invalid_scope" "No valid scopes requested"
            (some params.state)
        else
          .consent params.client_id client.client_name
            (if strTruthy client.logo_uri then client.logo_uri else none)
            (" ".intercalate validScopes) params.state params.redirect_uri
            params.code_challenge params.code_challenge_method params.nonce

/-- Body of POST /oauth/authorize/callback as the frontend sends it. -/
structure CallbackBody where
  client_id : String
  redirect_uri : String
  scope : String
  state : String
  code_challenge : String
  code_challenge_method : String
  nonce : Option String
  approved : Bool
deriving DecidableEq, Repr

/-- Result of the consent callback: a JSON error, the denial JSON whose
redirect_uri is built from the body redirect_uri with the access_denied error
and the body state, or the success JSON whose redirect_uri carries the fresh
code and the state.  URLs are abstracted to their components. -/
inductive CallbackResult where
  | jsonErr (error description : String) (status : Nat)
  | denied (redirect_uri state : String)
  | issued (redirect_uri code state : String)
deriving DecidableEq, Repr

/-- handleAuthorizeCallback from authorize.ts: the denial path answers
immediately from the body; the approval path re-validates the client and
redirect_uri, then builds an AuthorizationCode whose scope is body.scope
taken verbatim, stores it (server_error on insert failure), and returns the
redirect components. -/
def handleAuthorizeCallback (userId : String) (body : CallbackBody) (env : Env)
    (st : Store) : CallbackResult × Store :=
  if ¬ body.approved then
    (.denied body.redirect_uri body.state, st)
  else
    match getClient body.client_id st env.getClientFails with
    | none => (.jsonErr "invalid_client" "Client not found" 400, st)
    | some client =>
      if ¬ client.redirect_uris.contains body.redirect_uri then
        (.jsonErr "invalid_request" "Invalid redirect_uri" 400, st)
      else
        let code := env.freshAuthCode
        let authCode : AuthorizationCode :=
          { id := env.freshId
            code := code
            client_id := body.client_id
            user_id := userId
            redirect_uri := body.redirect_uri
            scope := body.scope
            code_challenge := some body.code_challenge
            code_challenge_method := some body.code_challenge_method
            state := some body.state
            nonce := body.nonce
            expires_at := env.now + AUTHORIZATION_CODE_EXPIRY * 1000
            used := false
            created_at := env.now }
        if env.storeCodeFails then
          (.jsonErr "server_error" "Failed to generate authorization code" 500, st)
        else
          (.issued body.redirect_uri code body.state,
            { st with authCodes := st.authCodes ++ [authCode] })

-- ========== UserInfo endpoint (src/worker/src/oauth/userinfo.ts) ==========

/-- UserInfoResponse from types.ts. -/
structure UserInfoResponse where
  sub : String
  name : Option String
  picture : Option String
  email : Option String
  wallet_address : Option String
  camly_balance : Option Int
deriving DecidableEq, Repr

/-- Claims-building core of handleUserInfo (userinfo.ts lines 127 to 165),
taking the sub and scope fields of an already verified access token; JWT
verification itself is external jose code.  Always includes sub, then gates
name and picture on the profile scope, email on the email scope, and
wallet_address and camly_balance on the wallet scope, with the same truthiness
guards as the source. -/
def buildUserInfoResponse (userId scope : String) (env : Env) (st : Store) :
    UserInfoResponse :=
  let scopes := splitOnSpace scope
  let response0 : UserInfoResponse :=
    { sub := userId, name := none, picture := none, email := none
      wallet_address := none, camly_balance := none }
  let profile := getUserProfile userId st env.getProfileFails
  let response1 :=
    match profile with
    | some p =>
        if scopes.contains "profile" then
          let r := response0
          let r := if strTruthy p.display_name then { r with name := p.display_name } else r
          if strTruthy p.avatar_url then { r with picture := p.avatar_url } else r
        else response0
    | none => response0
  let response2 :=
    if scopes.contains "email" then
      match getUserEmail userId st env.getEmailFails with
      | some e => { response1 with email := some e }
      | none => response1
    else response1
  match profile with
  | some p =>
      if scopes.contains "wallet" then
        let r := response2
        let r := if strTruthy p.wallet_address then
            { r with wallet_address := p.wallet_address } else r
        match p.camly_balance with
        | some v => { r with camly_balance := some v }
        | none => r
      else response2
  | none => response2

/-- Concrete 43-character verifier used by witnesses. -/
def cVerifier : String := String.mk (List.replicate 43 'a')

-- ========== Concrete fixtures for witnesses and counterexamples ==========

/-- Baseline fault-free environment with concrete oracles, used by the
concrete evaluations below. -/
def env0 : Env :=
  { now := 1000000
    sha256 := fun _ => [1, 2, 3]
    hashToken := fun s => String.append "h:" s
    verifyClientSecret := fun s h => String.append "b:" s = h
    freshRefreshToken := "rt-new"
    freshAuthCode := "code-new"
    freshId := "id-new"
    getCodeFails := false
    markUsedFails := false
    getClientFails := false
    getProfileFails := false
    getEmailFails := false
    storeRefreshFails := false
    getRefreshFails := false
    revokeFails := false
    storeCodeFails := false }

/-- Registered public client used by the concrete scenarios. -/
def clientApp : OAuthClient :=
  { id := "row1"
    client_id := "app"
    client_name := "App"
    client_secret_hash := "b:sec"
    redirect_uris := ["https://app.example/cb"]
    scopes := ["openid", "profile", "email", "wallet"]
    grant_types := ["authorization_code", "refresh_token"]
    is_active := true
    is_confidential := false
    logo_uri := none
    client_uri := none }

/-- Fresh unexpired authorization code bound to clientApp, with the challenge
matching cVerifier under the constant digest oracle of env0. -/
def freshCode : AuthorizationCode :=
  { id := "ac1"
    code := "c1"
    client_id := "app"
    user_id := "user1"
    redirect_uri := "https://app.example/cb"
    scope := "openid profile"
    code_challenge := some (base64UrlEncode [1, 2, 3])
    code_challenge_method := some "S256"
    state := some "xyz"
    nonce := some "n-1"
    expires_at := 1500000
    used := false
    created_at := 900000 }

/-- Same code with the used flag already set. -/
def usedCode : AuthorizationCode := { freshCode with used := true }

/-- Same code, expired relative to env0. -/
def expiredCode : AuthorizationCode := { freshCode with expires_at := 500000 }

/-- Store holding the registered client and a fresh code. -/
def stFresh : Store :=
  { authCodes := [freshCode], refreshTokens := [], clients := [clientApp]
    profiles := [], emails := [] }

/-- Store holding the registered client and only the used code. -/
def stUsed : Store :=
  { authCodes := [usedCode], refreshTokens := [], clients := [clientApp]
    profiles := [], emails := [] }

/-- Store holding the registered client and only the expired code. -/
def stExpired : Store :=
  { authCodes := [expiredCode], refreshTokens := [], clients := [clientApp]
    profiles := [], emails := [] }

/-- Store holding the registered client and no code at all. -/
def stNoCode : Store :=
  { authCodes := [], refreshTokens := [], clients := [clientApp]
    profiles := [], emails := [] }

/-- Token request parameters redeeming freshCode with the correct verifier. -/
def pRedeem : TokenParams :=
  { code := "c1"
    redirect_uri := "https://app.example/cb"
    client_id := "app"
    client_secret := ""
    code_verifier := cVerifier
    refresh_token := "" }

/-- Consent body approving a scope string that contains a value outside
SUPPORTED_SCOPES. -/
def bodyUnsupportedScope : CallbackBody :=
  { client_id := "app"
    redirect_uri := "https://app.example/cb"
    scope := "openid superpowers"
    state := "xyz"
    code_challenge := "AAAAAAAAAAAAAAAAAAAAAAAAAAAAAAAAAAAAAAAAAAA"
    code_challenge_method := "S256"
    nonce := none
    approved := true }

-- ========== Further fixtures for the token endpoint claims ==========

/-- Conditional mark-as-used described by the spec for comparison with the
source operation: an update restricted to rows with used still false,
reporting whether any row was affected. -/
def markCodeAsUsedWhereUnused (code : String) (st : Store) : Bool × Store :=
  (st.authCodes.any (fun r => r.code = code && r.used = false),
   { st with authCodes :=
       st.authCodes.map (fun r =>
         if r.code = code && r.used = false then { r with used := true } else r) })

/-- Refresh token value carried by a successful token result. -/
def TokenResult.refreshTokenValue : TokenResult → Option String
  | .success t => some t.refresh_token
  | .error _ _ _ => none

/-- Unrevoked unexpired refresh token record for user1 and clientApp, whose
hash matches the presented token rt-old under the env0 oracle. -/
def oldRefreshRecord : RefreshTokenRecord :=
  { id := "rt1"
    token_hash := "h:rt-old"
    user_id := "user1"
    client_id := "app"
    scope := "openid profile"
    expires_at := 2000000
    revoked := false
    revoked_at := none
    created_at := 900000 }

/-- Store with the registered client and the live refresh token record. -/
def stRefresh : Store :=
  { authCodes := [], refreshTokens := [oldRefreshRecord], clients := [clientApp]
    profiles := [], emails := [] }

/-- Store where the presented refresh token record is already revoked. -/
def stRefreshRevoked : Store :=
  { authCodes := []
    refreshTokens := [{ oldRefreshRecord with revoked := true, revoked_at := some 950000 }]
    clients := [clientApp], profiles := [], emails := [] }

/-- Store where the presented refresh token record is expired. -/
def stRefreshExpired : Store :=
  { authCodes := []
    refreshTokens := [{ oldRefreshRecord with expires_at := 500000 }]
    clients := [clientApp], profiles := [], emails := [] }

/-- Token request presenting the rt-old refresh token. -/
def pRefresh : TokenParams :=
  { code := "", redirect_uri := "", client_id := "app", client_secret := ""
    code_verifier := "", refresh_token := "rt-old" }

/-- Profile row for user1 with every optional attribute populated. -/
def profileU1 : UserProfile :=
  { id := "user1"
    display_name := some "Alice"
    avatar_url := some "https://img.example/a.png"
    bio := none
    wallet_address := some "0xabc"
    camly_balance := some 42 }

/-- Store with the client, the profile row and an email for user1. -/
def stProfile : Store :=
  { authCodes := [], refreshTokens := [], clients := [clientApp]
    profiles := [profileU1], emails := [("user1", "alice@example.org")] }

/-- Token request carrying both a code with its verifier and a refresh
token, used by the C6 witness since the uniformity theorem quantifies over a
single parameter record. -/
def pBoth : TokenParams :=
  { code := "c1"
    redirect_uri := "https://app.example/cb"
    client_id := "app"
    client_secret := ""
    code_verifier := cVerifier
    refresh_token := "rt-old" }

-- ========== Lemmas about secureCompare ==========

theorem lor_eq_zero_iff (a b : Nat) : a ||| b = 0 ↔ a = 0 ∧ b = 0 := by
  constructor
  · intro h
    have hcommon : ∀ i, a.testBit i = false ∧ b.testBit i = false := by
      intro i
      have hb := congrArg (fun n => Nat.testBit n i) h
      simp only [Nat.testBit_lor, Nat.zero_testBit, Bool.or_eq_false_iff] at hb
      exact hb
    constructor
    · exact Nat.eq_of_testBit_eq fun i => by
        rw [(hcommon i).1, Nat.zero_testBit]
    · exact Nat.eq_of_testBit_eq fun i => by
        rw [(hcommon i).2, Nat.zero_testBit]
  · rintro ⟨rfl, rfl⟩
    rfl

theorem foldl_lor_eq_zero (l : List Nat) (acc : Nat) :
    l.foldl (fun r v => r ||| v) acc = 0 ↔ acc = 0 ∧ ∀ x ∈ l, x = 0 := by
  induction l generalizing acc with
  | nil => simp
  | cons y ys ih =>
      simp only [List.foldl_cons, ih, List.mem_cons, lor_eq_zero_iff]
      constructor
      · rintro ⟨⟨h0, hy⟩, hall⟩
        refine ⟨h0, ?_⟩
        rintro x (rfl | hx)
        · exact hy
        · exact hall x hx
      · rintro ⟨h0, hall⟩
        exact ⟨⟨h0, hall y (Or.inl rfl)⟩, fun x hx => hall x (Or.inr hx)⟩

theorem zipWith_xor_zero_iff (a b : List Char) (hlen : a.length = b.length) :
    (∀ x ∈ List.zipWith (fun x y : Char => x.toNat ^^^ y.toNat) a b, x = 0) ↔ a = b := by
  induction a generalizing b with
  | nil =>
      cases b with
      | nil => simp
      | cons y ys => simp at hlen
  | cons x xs ih =>
      cases b with
      | nil => simp at hlen
      | cons y ys =>
          simp only [List.zipWith_cons_cons, List.mem_cons, List.cons.injEq]
          simp only [List.length_cons, Nat.succ.injEq] at hlen
          constructor
          · intro h
            have hx : x.toNat ^^^ y.toNat = 0 := h _ (Or.inl rfl)
            have hxy : x = y :=
              Char.eq_of_val_eq (UInt32.toNat.inj (Nat.xor_eq_zero.mp hx))
            refine ⟨hxy, (ih ys hlen).mp ?_⟩
            intro z hz
            exact h z (Or.inr hz)
          · rintro ⟨rfl, rfl⟩
            intro z hz
            rcases hz with hz | hz
            · rw [hz]
              exact Nat.xor_self _
            · exact ((ih xs rfl).mpr rfl) z hz

/-- secureCompare decides string equality: it returns true exactly when the
two strings are equal. -/
theorem secureCompare_iff (a b : String) : secureCompare a b = true ↔ a = b := by
  unfold secureCompare
  by_cases hlen : a.length = b.length
  · rw [if_neg (by simp [hlen])]
    rw [beq_iff_eq]
    rw [foldl_lor_eq_zero]
    constructor
    · rintro ⟨-, hall⟩
      have hd : a.data = b.data := (zipWith_xor_zero_iff a.data b.data hlen).mp hall
      cases a
      cases b
      exact congrArg String.mk hd
    · intro h
      subst h
      exact ⟨rfl, (zipWith_xor_zero_iff a.data a.data rfl).mpr rfl⟩
  · rw [if_pos (by simp [hlen])]
    exact iff_of_false (by simp) (fun h => hlen (by rw [h]))

-- ========== Claim C2: PKCE verification ==========

/-- C2: PKCE verification is correct.  For every SHA-256 oracle and every
verifier matching the RFC 7636 regex, verifyPKCE of the verifier against the
base64url encoding of its own digest under method S256 returns true; and
verifyPKCE returns false when the method is not exactly S256, when the
verifier does not match the regex, and when the presented challenge differs
from the recomputed base64url digest in any way (any character or the
length, both being string inequality). -/
theorem verifyPKCE_correct (sha : String → List Nat) (v ch m : String) :
    (isValidCodeVerifier v = true →
      verifyPKCE sha v (base64UrlEncode (sha v)) "S256" = true)
    ∧ (m ≠ "S256" → verifyPKCE sha v ch m = false)
    ∧ (isValidCodeVerifier v = false → verifyPKCE sha v ch m = false)
    ∧ (ch ≠ base64UrlEncode (sha v) → verifyPKCE sha v ch m = false) := by
  refine ⟨?_, ?_, ?_, ?_⟩
  · intro hv
    unfold verifyPKCE
    rw [if_neg (by simp)]
    rw [if_neg (by simp [hv])]
    exact (secureCompare_iff _ _).mpr rfl
  · intro hm
    unfold verifyPKCE
    rw [if_pos hm]
  · intro hv
    unfold verifyPKCE
    by_cases hm : m ≠ "S256"
    · rw [if_pos hm]
    · rw [if_neg hm, if_pos (by simp [hv])]
  · intro hch
    unfold verifyPKCE
    by_cases hm : m ≠ "S256"
    · rw [if_pos hm]
    · rw [if_neg hm]
      by_cases hv : isValidCodeVerifier v = true
      · rw [if_neg (by simp [hv])]
        cases hsc : secureCompare (base64UrlEncode (sha v)) ch
        · rfl
        · exact absurd ((secureCompare_iff _ _).mp hsc).symm hch
      · rw [if_pos (by simpa using hv)]

/-- Witness for C2 at a concrete oracle and verifier: the matching challenge
is accepted, the plain method, a bad verifier and a mutated challenge are
rejected. -/
theorem verifyPKCE_correct_witness :
    verifyPKCE (fun _ => [1, 2, 3]) cVerifier (base64UrlEncode [1, 2, 3]) "S256" = true
    ∧ verifyPKCE (fun _ => [1, 2, 3]) cVerifier "AQID" "plain" = false
    ∧ verifyPKCE (fun _ => [1, 2, 3]) "short" "AQID" "S256" = false
    ∧ verifyPKCE (fun _ => [1, 2, 3]) cVerifier "AQIE" "S256" = false := by
  refine ⟨?_, ?_, ?_, ?_⟩
  · exact (verifyPKCE_correct (fun _ => [1, 2, 3]) cVerifier "AQID" "S256").1 (by decide)
  · exact (verifyPKCE_correct (fun _ => [1, 2, 3]) cVerifier "AQID" "plain").2.1 (by decide)
  · exact (verifyPKCE_correct (fun _ => [1, 2, 3]) "short" "AQID" "S256").2.2.1 (by decide)
  · exact (verifyPKCE_correct (fun _ => [1, 2, 3]) cVerifier "AQIE" "S256").2.2.2 (by decide)

-- ========== Claim C8: response_type validation ==========

/-- C8 counterexample: with response_type absent and every other parameter
well formed, the authorize endpoint answers invalid_request, not the
unsupported_response_type error the claim requires for the absent case. -/
theorem authorize_missing_response_type_is_invalid_request :
    handleAuthorize
      { response_type := none
        client_id := some "app"
        redirect_uri := some "https://app.example/cb"
        scope := some "openid"
        state := some "xyz"
        code_challenge := some "AAAAAAAAAAAAAAAAAAAAAAAAAAAAAAAAAAAAAAAAAAA"
        code_challenge_method := some "S256"
        nonce := none } env0 stFresh
      = .jsonErr "invalid_request" "Missing response_type parameter" 400
    ∧ "invalid_request" ≠ "unsupported_response_type" := by
  exact ⟨by decide, by decide⟩

/-- C8 amended: a missing (or empty) response_type is rejected directly with
invalid_request, and a present response_type different from code is rejected
directly with unsupported_response_type; both rejections are direct JSON
errors, never redirects, and fire whatever the remaining parameters, the
store and the environment are, hence before any other validation step. -/
theorem authorize_response_type_checked_first (u : AuthorizeQuery) (env : Env)
    (st : Store) :
    (strTruthy u.response_type = false →
      handleAuthorize u env st =
        .jsonErr "invalid_request" "Missing response_type parameter" 400)
    ∧ (∀ v : String, u.response_type = some v → v ≠ "" → v ≠ "code" →
      handleAuthorize u env st =
        .jsonErr "unsupported_response_type" "Only response_type=code is supported" 400) := by
  constructor
  · intro h
    unfold handleAuthorize validateAuthorizeRequest
    rw [if_pos (by simp [h])]
  · intro v hv hne hcode
    unfold handleAuthorize validateAuthorizeRequest
    rw [if_neg (by simp [hv, strTruthy, hne])]
    rw [if_pos (by simp [hv, hcode])]

/-- Witness for the C8 amended theorem at concrete inputs: the implicit
grant request with response_type token gets unsupported_response_type, and a
request with no response_type gets invalid_request. -/
theorem authorize_response_type_checked_first_witness :
    handleAuthorize
      { response_type := some "token"
        client_id := some "app"
        redirect_uri := some "https://app.example/cb"
        scope := some "openid"
        state := some "xyz"
        code_challenge := some "AAAAAAAAAAAAAAAAAAAAAAAAAAAAAAAAAAAAAAAAAAA"
        code_challenge_method := some "S256"
        nonce := none } env0 stFresh
      = .jsonErr "unsupported_response_type" "Only response_type=code is supported" 400
    ∧ handleAuthorize
      { response_type := some ""
        client_id := some "app"
        redirect_uri := some "https://app.example/cb"
        scope := some "openid"
        state := some "xyz"
        code_challenge := some "AAAAAAAAAAAAAAAAAAAAAAAAAAAAAAAAAAAAAAAAAAA"
        code_challenge_method := some "S256"
        nonce := none } env0 stFresh
      = .jsonErr "invalid_request" "Missing response_type parameter" 400 := by
  constructor
  · exact (authorize_response_type_checked_first _ env0 stFresh).2 "token" rfl
      (by decide) (by decide)
  · exact (authorize_response_type_checked_first _ env0 stFresh).1 (by decide)

-- ========== Claim C9: callback stores the body scope verbatim ==========

/-- C9: in the consent callback with approved true, every authorization code
record added to the store carries the request body scope string verbatim;
nothing is re-filtered through validateScopes or the client registered
scopes, as the witness shows on a scope string containing an unsupported
value. -/
theorem callback_stores_scope_verbatim (userId : String) (body : CallbackBody)
    (env : Env) (st : Store) (happ : body.approved = true) :
    ((handleAuthorizeCallback userId body env st).2.authCodes.all
      (fun rec => st.authCodes.contains rec || rec.scope == body.scope)) = true := by
  unfold handleAuthorizeCallback
  rw [if_neg (by simp [happ])]
  cases hc : getClient body.client_id st env.getClientFails with
  | none =>
      simp only [List.all_eq_true]
      intro rec hrec
      simp [hrec]
  | some client =>
      simp only []
      by_cases hr : client.redirect_uris.contains body.redirect_uri
      · rw [if_neg (by simpa using hr)]
        by_cases hf : env.storeCodeFails
        · rw [if_pos hf]
          simp only [List.all_eq_true]
          intro rec hrec
          simp [hrec]
        · rw [if_neg hf]
          simp only [List.all_eq_true, List.mem_append]
          rintro rec (hrec | hrec)
          · simp [hrec]
          · simp only [List.mem_singleton] at hrec
            subst hrec
            simp
      · rw [if_pos (by simpa using hr)]
        simp only [List.all_eq_true]
        intro rec hrec
        simp [hrec]

/-- Witness for C9: approving scope openid superpowers stores it verbatim in
the new record even though validateScopes would have filtered it down to
openid alone. -/
theorem callback_stores_scope_verbatim_witness :
    ((handleAuthorizeCallback "user1" bodyUnsupportedScope env0 stNoCode).2.authCodes.all
      (fun rec => stNoCode.authCodes.contains rec || rec.scope == "openid superpowers")) = true
    ∧ validateScopes "openid superpowers" = ["openid"]
    ∧ ((handleAuthorizeCallback "user1" bodyUnsupportedScope env0 stNoCode).2.authCodes.map
        (fun rec => rec.scope)) = ["openid superpowers"] := by
  refine ⟨?_, by decide, by decide⟩
  exact callback_stores_scope_verbatim "user1" bodyUnsupportedScope env0 stNoCode rfl

-- ========== Claim C10: denial path answers from the body, unvalidated ==========

/-- C10: with approved false the consent callback returns the access_denied
redirect descriptor built from the body redirect_uri and state, for every
store and environment — in particular when the client does not exist, when
the client lookup would fail, and when the redirect_uri is not registered —
and it returns the store unchanged, so no authorization code record is
created. -/
theorem callback_denied_unvalidated (userId : String) (body : CallbackBody)
    (env : Env) (st : Store) (hden : body.approved = false) :
    handleAuthorizeCallback userId body env st =
      (.denied body.redirect_uri body.state, st) := by
  unfold handleAuthorizeCallback
  rw [if_pos (by simp [hden])]

/-- Witness for C10 on a store with no clients at all, a failing client
lookup, and an arbitrary unregistered redirect_uri: the denial descriptor is
still returned and the store is unchanged. -/
theorem callback_denied_unvalidated_witness :
    handleAuthorizeCallback "user1"
      { client_id := "ghost"
        redirect_uri := "https://evil.example/cb"
        scope := "openid"
        state := "s-1"
        code_challenge := "AAAAAAAAAAAAAAAAAAAAAAAAAAAAAAAAAAAAAAAAAAA"
        code_challenge_method := "S256"
        nonce := none
        approved := false }
      { env0 with getClientFails := true }
      { authCodes := [], refreshTokens := [], clients := [], profiles := [], emails := [] }
      = (.denied "https://evil.example/cb" "s-1",
         { authCodes := [], refreshTokens := [], clients := [], profiles := [], emails := [] }) := by
  exact callback_denied_unvalidated "user1" _ _ _ rfl

-- ========== Inversion lemmas for the handlers ==========

theorem generateTokens_inv (u c s : String) (n : Option String) (env : Env)
    (st : Store) (t : TokenResponse) (st1 : Store)
    (h : generateTokens u c s n env st = some (t, st1)) :
    env.storeRefreshFails = false
    ∧ t = { access_token := { sub := u, aud := c, client_id := c, scope := s }
            token_type := "Bearer"
            expires_in := ACCESS_TOKEN_EXPIRY
            refresh_token := env.freshRefreshToken
            id_token := buildIDTokenClaims u c s n env st
            scope := s }
    ∧ st1 = { st with refreshTokens := st.refreshTokens ++
        [{ id := env.freshId
           token_hash := env.hashToken env.freshRefreshToken
           user_id := u
           client_id := c
           scope := s
           expires_at := env.now + REFRESH_TOKEN_EXPIRY * 1000
           revoked := false
           revoked_at := none
           created_at := env.now }] } := by
  unfold generateTokens storeRefreshToken at h
  cases hf : env.storeRefreshFails with
  | true => rw [hf] at h; simp at h
  | false =>
      rw [hf] at h
      simp only [if_neg Bool.false_ne_true, Option.some.injEq, Prod.mk.injEq] at h
      exact ⟨rfl, h.1.symm, h.2.symm⟩

theorem generateTokens_store_fail (u c s : String) (n : Option String) (env : Env)
    (st : Store) (h : env.storeRefreshFails = true) :
    generateTokens u c s n env st = none := by
  unfold generateTokens storeRefreshToken
  rw [h]
  simp

theorem authCodeGrant_success_inv (p : TokenParams) (env : Env) (st : Store)
    (t : TokenResponse) (st2 : Store)
    (h : handleAuthorizationCodeGrant p env st = (.success t, st2)) :
    ∃ authCode client,
      getAuthorizationCode p.code st env.getCodeFails = some authCode
      ∧ getClient p.client_id st env.getClientFails = some client
      ∧ generateTokens authCode.user_id authCode.client_id authCode.scope authCode.nonce
          env (markCodeAsUsed p.code st env.markUsedFails).2 = some (t, st2) := by
  unfold handleAuthorizationCodeGrant at h
  repeat
    first
    | split at h
    | simp [tokenError] at h
  rename_i authCode hac
  unfold authCodeGrantValidate at h
  repeat
    first
    | split at h
    | simp [tokenError] at h
  rename_i client hcl
  unfold authCodeGrantIssue at h
  repeat
    first
    | split at h
    | simp [tokenError] at h
  obtain ⟨rfl, rfl⟩ := h
  exact ⟨_, _, by assumption, by assumption, by assumption⟩

theorem refreshGrant_success_inv (p : TokenParams) (env : Env) (st : Store)
    (t : TokenResponse) (st2 : Store)
    (h : handleRefreshTokenGrant p env st = (.success t, st2)) :
    ∃ tokenRecord client,
      getRefreshTokenRecord (env.hashToken p.refresh_token) st env.getRefreshFails =
        some tokenRecord
      ∧ getClient p.client_id st env.getClientFails = some client
      ∧ generateTokens tokenRecord.user_id tokenRecord.client_id tokenRecord.scope none env
          (revokeRefreshToken (env.hashToken p.refresh_token) env st).2 = some (t, st2) := by
  unfold handleRefreshTokenGrant at h
  repeat
    first
    | split at h
    | simp [tokenError] at h
  rename_i tokenRecord hrec
  unfold refreshGrantValidate at h
  repeat
    first
    | split at h
    | simp [tokenError] at h
  rename_i client hcl
  unfold refreshGrantIssue at h
  repeat
    first
    | split at h
    | simp [tokenError] at h
  obtain ⟨rfl, rfl⟩ := h
  exact ⟨_, _, by assumption, by assumption, by assumption⟩

theorem refreshGrant_server_error_inv (p : TokenParams) (env : Env) (st : Store)
    (st2 : Store)
    (h : handleRefreshTokenGrant p env st =
      (tokenError "server_error" "Failed to generate tokens" 500, st2)) :
    st2 = (revokeRefreshToken (env.hashToken p.refresh_token) env st).2 := by
  unfold handleRefreshTokenGrant at h
  repeat
    first
    | split at h
    | simp [tokenError] at h
  unfold refreshGrantValidate at h
  repeat
    first
    | split at h
    | simp [tokenError] at h
  unfold refreshGrantIssue at h
  split at h
  · simp [tokenError] at h
  split at h
  · simp [tokenError] at h
  split at h
  · simp only [tokenError, Prod.mk.injEq] at h
    exact h.2.symm
  · simp [tokenError] at h

-- ========== Store lemmas ==========

theorem getAuthorizationCode_none_of_all (code : String) (st : Store) (fail : Bool)
    (h : (st.authCodes.all (fun r => !(r.code == code) || r.used)) = true) :
    getAuthorizationCode code st fail = none := by
  unfold getAuthorizationCode
  cases fail with
  | true => rfl
  | false =>
      rw [if_neg (by simp)]
      have hfil : st.authCodes.filter (fun r => r.code = code && r.used = false) = [] := by
        rw [List.filter_eq_nil_iff]
        intro r hr
        have hp := List.all_eq_true.mp h r hr
        simp only [Bool.or_eq_true, Bool.not_eq_eq_eq_not, Bool.not_true, beq_eq_false_iff_ne,
          ne_eq] at hp
        simp only [Bool.and_eq_true, decide_eq_true_eq, not_and]
        intro hc
        rcases hp with hp | hp
        · exact absurd hc hp
        · simp [hp]
      rw [hfil]
      rfl

theorem getRefreshTokenRecord_none_of_all (tokenHash : String) (st : Store) (fail : Bool)
    (h : (st.refreshTokens.all (fun r => !(r.token_hash == tokenHash) || r.revoked)) = true) :
    getRefreshTokenRecord tokenHash st fail = none := by
  unfold getRefreshTokenRecord
  cases fail with
  | true => rfl
  | false =>
      rw [if_neg (by simp)]
      have hfil : st.refreshTokens.filter
          (fun r => r.token_hash = tokenHash && r.revoked = false) = [] := by
        rw [List.filter_eq_nil_iff]
        intro r hr
        have hp := List.all_eq_true.mp h r hr
        simp only [Bool.or_eq_true, Bool.not_eq_eq_eq_not, Bool.not_true, beq_eq_false_iff_ne,
          ne_eq] at hp
        simp only [Bool.and_eq_true, decide_eq_true_eq, not_and]
        intro hc
        rcases hp with hp | hp
        · exact absurd hc hp
        · simp [hp]
      rw [hfil]
      rfl

theorem markCodeAsUsed_marks (code : String) (st : Store) :
    ((markCodeAsUsed code st false).2.authCodes.all
      (fun r => !(r.code == code) || r.used)) = true := by
  unfold markCodeAsUsed
  rw [if_neg (by simp)]
  simp only [List.all_eq_true, List.mem_map]
  rintro r ⟨r0, hr0, rfl⟩
  by_cases hc : r0.code = code <;> simp [hc]

theorem revokeRefreshToken_revokes (tokenHash : String) (env : Env) (st : Store)
    (h : env.revokeFails = false) :
    ((revokeRefreshToken tokenHash env st).2.refreshTokens.all
      (fun r => !(r.token_hash == tokenHash) || r.revoked)) = true := by
  unfold revokeRefreshToken
  rw [h, if_neg (by simp)]
  simp only [List.all_eq_true, List.mem_map]
  rintro r ⟨r0, hr0, rfl⟩
  by_cases hc : r0.token_hash = tokenHash <;> simp [hc]

-- ========== Claim C1: authorization codes are single use ==========

/-- C1: authorization codes are single use in sequential execution with an
honest store (the mark-as-used PATCH reaching the database).  First, whenever
the grant handler succeeds, every record for the presented code in the
resulting store has used set to true.  Second, on any store in which every
record for the presented code already has used true, the handler — given the
required parameters — answers exactly the invalid_grant error used for
unknown codes, leaves the store unchanged, and hence issues no tokens, no
matter how fresh the code is or how correct the verifier, client_id and
redirect_uri are. -/
theorem authorization_code_single_use (p : TokenParams) (env : Env) (st : Store)
    (hmark : env.markUsedFails = false) :
    ((handleAuthorizationCodeGrant p env st).1.isSuccess = true →
      ((handleAuthorizationCodeGrant p env st).2.authCodes.all
        (fun r => !(r.code == p.code) || r.used)) = true)
    ∧ ((st.authCodes.all (fun r => !(r.code == p.code) || r.used)) = true →
      p.code ≠ "" → p.redirect_uri ≠ "" → p.client_id ≠ "" → p.code_verifier ≠ "" →
      handleAuthorizationCodeGrant p env st =
        (tokenError "invalid_grant" "Invalid or expired authorization code", st)) := by
  constructor
  · intro hsucc
    rcases hres : handleAuthorizationCodeGrant p env st with ⟨r, st2⟩
    rw [hres] at hsucc
    cases r with
    | error e d n => simp [TokenResult.isSuccess] at hsucc
    | success t =>
        obtain ⟨authCode, client, hac, hcl, hgen⟩ :=
          authCodeGrant_success_inv p env st t st2 hres
        have hst2 := (generateTokens_inv _ _ _ _ _ _ _ _ hgen).2.2
        have haut : st2.authCodes =
            (markCodeAsUsed p.code st env.markUsedFails).2.authCodes := by
          rw [hst2]
        show (st2.authCodes.all (fun r => !(r.code == p.code) || r.used)) = true
        rw [haut, hmark]
        exact markCodeAsUsed_marks p.code st
  · intro hall h1 h2 h3 h4
    have hnone := getAuthorizationCode_none_of_all p.code st env.getCodeFails hall
    unfold handleAuthorizationCodeGrant
    rw [if_neg h1, if_neg h2, if_neg h3, if_neg h4, hnone]

/-- Witness for C1: redeeming the fresh code succeeds and leaves it marked
used; redeeming against the store where the code is already used yields the
invalid_grant error with the store unchanged, although the code is unexpired
and code, verifier, client and redirect_uri are all correct. -/
theorem authorization_code_single_use_witness :
    ((handleAuthorizationCodeGrant pRedeem env0 stFresh).1.isSuccess = true →
      ((handleAuthorizationCodeGrant pRedeem env0 stFresh).2.authCodes.all
        (fun r => !(r.code == pRedeem.code) || r.used)) = true)
    ∧ handleAuthorizationCodeGrant pRedeem env0 stUsed =
        (tokenError "invalid_grant" "Invalid or expired authorization code", stUsed) := by
  constructor
  · exact (authorization_code_single_use pRedeem env0 stFresh rfl).1
  · exact (authorization_code_single_use pRedeem env0 stUsed rfl).2 (by decide)
      (by decide) (by decide) (by decide) (by decide)

-- ========== Claim C3: the mark-as-used update is not conditional ==========

/-- C3: the mark-as-used persistence operation of the source is not the
atomic conditional update the claim describes.  On a store whose only record
for the code already has used true, and likewise on a store with no record
for the code at all, the source markCodeAsUsed still reports success, while
the conditional update-where-used-is-false described by the spec reports
zero affected rows; the source PATCH filters on code equality alone and its
caller never sees an affected-row count, so the read-then-write race window
of two concurrent redemptions is not closed by it. -/
theorem markCodeAsUsed_not_conditional :
    (markCodeAsUsed "c1" stUsed false).1 = true
    ∧ (markCodeAsUsedWhereUnused "c1" stUsed).1 = false
    ∧ (markCodeAsUsed "c1" stNoCode false).1 = true
    ∧ (markCodeAsUsedWhereUnused "c1" stNoCode).1 = false := by decide

-- ========== Claim C4: fail-closed behaviour of store call sites ==========

/-- C4 counterexample: a request in which every check passes but the
mark-as-used PATCH fails still receives a full token set, and the code is
still unused in the resulting store — the handler ignores the result of
markCodeAsUsed on the success path. -/
theorem mark_used_failure_still_issues_tokens :
    ({ env0 with markUsedFails := true } : Env).markUsedFails = true
    ∧ (handleAuthorizationCodeGrant pRedeem { env0 with markUsedFails := true }
        stFresh).1.isSuccess = true
    ∧ ((handleAuthorizationCodeGrant pRedeem { env0 with markUsedFails := true }
        stFresh).2.authCodes.all (fun r => r.used == false)) = true := by
  refine ⟨rfl, ?_, ?_⟩ <;> decide

/-- C4 amended: the read call sites and the refresh-token insert fail
closed — if loading the code, loading the client, loading the refresh token
record or storing the new refresh token fails, the handlers never return a
success — but the claim is false for the update call sites: a failure of the
mark-as-used PATCH (and of the rotation revoke) is ignored, as the
counterexample shows. -/
theorem token_store_failures_fail_closed (p : TokenParams) (env : Env) (st : Store) :
    (env.getCodeFails = true →
      (handleAuthorizationCodeGrant p env st).1.isSuccess = false)
    ∧ (env.getClientFails = true →
      (handleAuthorizationCodeGrant p env st).1.isSuccess = false)
    ∧ (env.storeRefreshFails = true →
      (handleAuthorizationCodeGrant p env st).1.isSuccess = false)
    ∧ (env.getRefreshFails = true →
      (handleRefreshTokenGrant p env st).1.isSuccess = false)
    ∧ (env.getClientFails = true →
      (handleRefreshTokenGrant p env st).1.isSuccess = false)
    ∧ (env.storeRefreshFails = true →
      (handleRefreshTokenGrant p env st).1.isSuccess = false) := by
  have hetaA : handleAuthorizationCodeGrant p env st =
      ((handleAuthorizationCodeGrant p env st).1,
       (handleAuthorizationCodeGrant p env st).2) := rfl
  have hetaR : handleRefreshTokenGrant p env st =
      ((handleRefreshTokenGrant p env st).1,
       (handleRefreshTokenGrant p env st).2) := rfl
  refine ⟨?_, ?_, ?_, ?_, ?_, ?_⟩ <;> intro hf
  · cases hs : (handleAuthorizationCodeGrant p env st).1 with
    | error e d n => rfl
    | success t =>
        rw [hs] at hetaA
        obtain ⟨ac, cl, hac, hcl, hgen⟩ := authCodeGrant_success_inv p env st t _ hetaA
        rw [hf] at hac
        simp [getAuthorizationCode] at hac
  · cases hs : (handleAuthorizationCodeGrant p env st).1 with
    | error e d n => rfl
    | success t =>
        rw [hs] at hetaA
        obtain ⟨ac, cl, hac, hcl, hgen⟩ := authCodeGrant_success_inv p env st t _ hetaA
        rw [hf] at hcl
        simp [getClient] at hcl
  · cases hs : (handleAuthorizationCodeGrant p env st).1 with
    | error e d n => rfl
    | success t =>
        rw [hs] at hetaA
        obtain ⟨ac, cl, hac, hcl, hgen⟩ := authCodeGrant_success_inv p env st t _ hetaA
        rw [generateTokens_store_fail _ _ _ _ _ _ hf] at hgen
        cases hgen
  · cases hs : (handleRefreshTokenGrant p env st).1 with
    | error e d n => rfl
    | success t =>
        rw [hs] at hetaR
        obtain ⟨rec, cl, hrec, hcl, hgen⟩ := refreshGrant_success_inv p env st t _ hetaR
        rw [hf] at hrec
        simp [getRefreshTokenRecord] at hrec
  · cases hs : (handleRefreshTokenGrant p env st).1 with
    | error e d n => rfl
    | success t =>
        rw [hs] at hetaR
        obtain ⟨rec, cl, hrec, hcl, hgen⟩ := refreshGrant_success_inv p env st t _ hetaR
        rw [hf] at hcl
        simp [getClient] at hcl
  · cases hs : (handleRefreshTokenGrant p env st).1 with
    | error e d n => rfl
    | success t =>
        rw [hs] at hetaR
        obtain ⟨rec, cl, hrec, hcl, hgen⟩ := refreshGrant_success_inv p env st t _ hetaR
        rw [generateTokens_store_fail _ _ _ _ _ _ hf] at hgen
        cases hgen

/-- Witness for the C4 amended theorem at concrete fail-flag environments. -/
theorem token_store_failures_fail_closed_witness :
    (handleAuthorizationCodeGrant pRedeem { env0 with getCodeFails := true }
      stFresh).1.isSuccess = false
    ∧ (handleAuthorizationCodeGrant pRedeem { env0 with storeRefreshFails := true }
      stFresh).1.isSuccess = false
    ∧ (handleRefreshTokenGrant pRefresh { env0 with getRefreshFails := true }
      stRefresh).1.isSuccess = false := by
  refine ⟨?_, ?_, ?_⟩
  · exact (token_store_failures_fail_closed pRedeem _ stFresh).1 rfl
  · exact (token_store_failures_fail_closed pRedeem _ stFresh).2.2.1 rfl
  · exact (token_store_failures_fail_closed pRefresh _ stRefresh).2.2.2.1 rfl

-- ========== Claim C5: refresh token rotation ==========

/-- C5: refresh tokens rotate on every redemption, under an honest store
(the revoke PATCH reaching the database) and a fresh random token whose
value and hash differ from the presented ones.  On success, every record for
the presented token hash in the resulting store is revoked — and the same
already holds when token generation fails with server_error, since the
revoke is performed first — the returned refresh token is the freshly drawn
one and therefore differs from the presented token; and on any store in
which every record for the presented hash is already revoked, the handler
answers exactly the invalid_grant error used for unknown tokens with the
store unchanged, issuing nothing. -/
theorem refresh_token_rotation (p : TokenParams) (env : Env) (st : Store)
    (hrev : env.revokeFails = false)
    (hfresh : env.freshRefreshToken ≠ p.refresh_token)
    (hhash : env.hashToken env.freshRefreshToken ≠ env.hashToken p.refresh_token) :
    ((handleRefreshTokenGrant p env st).1.isSuccess = true →
      ((handleRefreshTokenGrant p env st).2.refreshTokens.all
        (fun r => !(r.token_hash == env.hashToken p.refresh_token) || r.revoked)) = true
      ∧ (handleRefreshTokenGrant p env st).1.refreshTokenValue =
          some env.freshRefreshToken
      ∧ (handleRefreshTokenGrant p env st).1.refreshTokenValue ≠ some p.refresh_token)
    ∧ ((handleRefreshTokenGrant p env st).1 =
        tokenError "server_error" "Failed to generate tokens" 500 →
      ((handleRefreshTokenGrant p env st).2.refreshTokens.all
        (fun r => !(r.token_hash == env.hashToken p.refresh_token) || r.revoked)) = true)
    ∧ ((st.refreshTokens.all
        (fun r => !(r.token_hash == env.hashToken p.refresh_token) || r.revoked)) = true →
      p.refresh_token ≠ "" → p.client_id ≠ "" →
      handleRefreshTokenGrant p env st =
        (tokenError "invalid_grant" "Invalid or expired refresh token", st)) := by
  refine ⟨?_, ?_, ?_⟩
  · intro hsucc
    rcases hres : handleRefreshTokenGrant p env st with ⟨r, st2⟩
    rw [hres] at hsucc
    cases r with
    | error e d n => simp [TokenResult.isSuccess] at hsucc
    | success t =>
        obtain ⟨rec, cl, hrec, hcl, hgen⟩ := refreshGrant_success_inv p env st t st2 hres
        obtain ⟨-, ht, hst2⟩ := generateTokens_inv _ _ _ _ _ _ _ _ hgen
        refine ⟨?_, ?_, ?_⟩
        · show (st2.refreshTokens.all
            (fun r => !(r.token_hash == env.hashToken p.refresh_token) || r.revoked)) = true
          rw [hst2]
          simp only [List.all_append]
          rw [Bool.and_eq_true]
          constructor
          · exact revokeRefreshToken_revokes (env.hashToken p.refresh_token) env st hrev
          · simp [hhash]
        · show (TokenResult.success t).refreshTokenValue = some env.freshRefreshToken
          rw [ht]
          rfl
        · show (TokenResult.success t).refreshTokenValue ≠ some p.refresh_token
          rw [ht]
          intro hcontra
          simp only [TokenResult.refreshTokenValue, Option.some.injEq] at hcontra
          exact hfresh hcontra
  · intro herr
    rcases hres : handleRefreshTokenGrant p env st with ⟨r, st2⟩
    rw [hres] at herr
    show (st2.refreshTokens.all
      (fun r => !(r.token_hash == env.hashToken p.refresh_token) || r.revoked)) = true
    have hr : r = tokenError "server_error" "Failed to generate tokens" 500 := herr
    rw [hr] at hres
    have hst2 := refreshGrant_server_error_inv p env st st2 hres
    rw [hst2]
    exact revokeRefreshToken_revokes (env.hashToken p.refresh_token) env st hrev
  · intro hall h1 h2
    have hnone := getRefreshTokenRecord_none_of_all (env.hashToken p.refresh_token) st
      env.getRefreshFails hall
    unfold handleRefreshTokenGrant
    rw [if_neg h1, if_neg h2, hnone]

/-- Witness for C5: redeeming the live record succeeds with the new token
rt-new, leaving the old hash revoked; presenting the token whose record is
revoked yields invalid_grant with the store unchanged. -/
theorem refresh_token_rotation_witness :
    ((handleRefreshTokenGrant pRefresh env0 stRefresh).2.refreshTokens.all
      (fun r => !(r.token_hash == env0.hashToken pRefresh.refresh_token) || r.revoked)) = true
    ∧ (handleRefreshTokenGrant pRefresh env0 stRefresh).1.refreshTokenValue = some "rt-new"
    ∧ handleRefreshTokenGrant pRefresh env0 stRefreshRevoked =
        (tokenError "invalid_grant" "Invalid or expired refresh token", stRefreshRevoked) := by
  have h := refresh_token_rotation pRefresh env0 stRefresh rfl (by decide) (by decide)
  have hs := h.1 (by decide)
  refine ⟨hs.1, hs.2.1, ?_⟩
  exact (refresh_token_rotation pRefresh env0 stRefreshRevoked rfl (by decide)
    (by decide)).2.2 (by decide) (by decide) (by decide)

-- ========== Claim C6: indistinguishable invalid_grant conditions ==========

/-- C6 counterexample: not-found and already-used codes receive the same
body, but the expired code receives a different error_description, so the
three conditions do not all produce the same response body as the claim
states (the error code itself is invalid_grant in all three). -/
theorem invalid_grant_descriptions_differ :
    (handleAuthorizationCodeGrant pRedeem env0 stNoCode).1 =
      tokenError "invalid_grant" "Invalid or expired authorization code"
    ∧ (handleAuthorizationCodeGrant pRedeem env0 stUsed).1 =
      tokenError "invalid_grant" "Invalid or expired authorization code"
    ∧ (handleAuthorizationCodeGrant pRedeem env0 stExpired).1 =
      tokenError "invalid_grant" "Authorization code has expired"
    ∧ ("Invalid or expired authorization code" : String) ≠
        "Authorization code has expired" := by
  refine ⟨?_, ?_, ?_, ?_⟩ <;> decide

/-- C6 amended: for authorization codes and refresh tokens alike, not-found
and already-used (or revoked) are indistinguishable — the handler result is
identical for any store with no matching record and any store whose matching
records are all used or revoked — and the expired case carries the same
error class, invalid_grant with status 400, though with its own
error_description. -/
theorem invalid_grant_uniform_error_class (p : TokenParams) (env : Env)
    (stA stB stC stD stE stF : Store)
    (rec : AuthorizationCode) (rrec : RefreshTokenRecord)
    (hA : (stA.authCodes.all (fun r => !(r.code == p.code))) = true)
    (hB : (stB.authCodes.all (fun r => !(r.code == p.code) || r.used)) = true)
    (hC : (stC.refreshTokens.all
      (fun r => !(r.token_hash == env.hashToken p.refresh_token))) = true)
    (hD : (stD.refreshTokens.all
      (fun r => !(r.token_hash == env.hashToken p.refresh_token) || r.revoked)) = true)
    (hcode : p.code ≠ "") (hred : p.redirect_uri ≠ "") (hcid : p.client_id ≠ "")
    (hver : p.code_verifier ≠ "") (hrt : p.refresh_token ≠ "")
    (hrecE : getAuthorizationCode p.code stE env.getCodeFails = some rec)
    (hexpE : rec.expires_at < env.now)
    (hrecF : getRefreshTokenRecord (env.hashToken p.refresh_token) stF
      env.getRefreshFails = some rrec)
    (hexpF : rrec.expires_at < env.now) :
    (handleAuthorizationCodeGrant p env stA).1 = (handleAuthorizationCodeGrant p env stB).1
    ∧ (handleRefreshTokenGrant p env stC).1 = (handleRefreshTokenGrant p env stD).1
    ∧ (handleAuthorizationCodeGrant p env stE).1 =
        tokenError "invalid_grant" "Authorization code has expired"
    ∧ (handleRefreshTokenGrant p env stF).1 =
        tokenError "invalid_grant" "Refresh token has expired" := by
  have hA2 : (stA.authCodes.all (fun r => !(r.code == p.code) || r.used)) = true := by
    rw [List.all_eq_true] at hA ⊢
    intro r hr
    simp [hA r hr]
  have hC2 : (stC.refreshTokens.all
      (fun r => !(r.token_hash == env.hashToken p.refresh_token) || r.revoked)) = true := by
    rw [List.all_eq_true] at hC ⊢
    intro r hr
    simp [hC r hr]
  have hnA := getAuthorizationCode_none_of_all p.code stA env.getCodeFails hA2
  have hnB := getAuthorizationCode_none_of_all p.code stB env.getCodeFails hB
  have hnC := getRefreshTokenRecord_none_of_all (env.hashToken p.refresh_token) stC
    env.getRefreshFails hC2
  have hnD := getRefreshTokenRecord_none_of_all (env.hashToken p.refresh_token) stD
    env.getRefreshFails hD
  refine ⟨?_, ?_, ?_, ?_⟩
  · unfold handleAuthorizationCodeGrant
    rw [hnA, hnB]
    split_ifs <;> rfl
  · unfold handleRefreshTokenGrant
    rw [hnC, hnD]
    split_ifs <;> rfl
  · unfold handleAuthorizationCodeGrant
    rw [if_neg hcode, if_neg hred, if_neg hcid, if_neg hver, hrecE]
    show (authCodeGrantValidate p env stE rec).1 =
      tokenError "invalid_grant" "Authorization code has expired"
    unfold authCodeGrantValidate
    rw [if_pos hexpE]
  · unfold handleRefreshTokenGrant
    rw [if_neg hrt, if_neg hcid, hrecF]
    show (refreshGrantValidate p env stF rrec).1 =
      tokenError "invalid_grant" "Refresh token has expired"
    unfold refreshGrantValidate
    rw [if_pos hexpF]

/-- Witness for the C6 amended theorem on concrete stores: missing versus
used code, missing versus revoked refresh token, and the two expired
cases. -/
theorem invalid_grant_uniform_error_class_witness :
    (handleAuthorizationCodeGrant pBoth env0 stNoCode).1 =
      (handleAuthorizationCodeGrant pBoth env0 stUsed).1
    ∧ (handleRefreshTokenGrant pBoth env0 stNoCode).1 =
      (handleRefreshTokenGrant pBoth env0 stRefreshRevoked).1
    ∧ (handleAuthorizationCodeGrant pBoth env0 stExpired).1 =
      tokenError "invalid_grant" "Authorization code has expired"
    ∧ (handleRefreshTokenGrant pBoth env0 stRefreshExpired).1 =
      tokenError "invalid_grant" "Refresh token has expired" := by
  exact invalid_grant_uniform_error_class pBoth env0 stNoCode stUsed stNoCode
    stRefreshRevoked stExpired stRefreshExpired expiredCode
    { oldRefreshRecord with expires_at := 500000 }
    (by decide) (by decide) (by decide) (by decide) (by decide) (by decide)
    (by decide) (by decide) (by decide) (by decide) (by decide) (by decide)
    (by decide)

-- ========== Lemmas about claim gating ==========

set_option maxHeartbeats 3200000 in
theorem claims_consistent (u c s : String) (n : Option String) (env : Env) (st : Store) :
    (buildUserInfoResponse u s env st).sub = u
    ∧ (buildUserInfoResponse u s env st).name = (buildIDTokenClaims u c s n env st).name
    ∧ (buildUserInfoResponse u s env st).picture =
        (buildIDTokenClaims u c s n env st).picture
    ∧ (buildUserInfoResponse u s env st).email = (buildIDTokenClaims u c s n env st).email
    ∧ (buildUserInfoResponse u s env st).wallet_address =
        (buildIDTokenClaims u c s n env st).wallet_address
    ∧ (buildUserInfoResponse u s env st).camly_balance =
        (buildIDTokenClaims u c s n env st).camly_balance := by
  unfold buildIDTokenClaims buildUserInfoResponse
  cases hp : getUserProfile u st env.getProfileFails with
  | none =>
      cases he : getUserEmail u st env.getEmailFails <;>
        simp only [] <;> split_ifs <;> simp
  | some prof =>
      cases he : getUserEmail u st env.getEmailFails <;>
      cases hcb : prof.camly_balance <;>
        simp only [hcb] <;> split_ifs <;> simp

set_option maxHeartbeats 3200000 in
theorem idclaims_gated (u c s : String) (n : Option String) (env : Env) (st : Store) :
    ((splitOnSpace s).contains "email" = false →
      (buildIDTokenClaims u c s n env st).email = none)
    ∧ ((splitOnSpace s).contains "profile" = false →
      (buildIDTokenClaims u c s n env st).name = none
      ∧ (buildIDTokenClaims u c s n env st).picture = none)
    ∧ ((splitOnSpace s).contains "wallet" = false →
      (buildIDTokenClaims u c s n env st).wallet_address = none
      ∧ (buildIDTokenClaims u c s n env st).camly_balance = none) := by
  unfold buildIDTokenClaims
  cases hp : getUserProfile u st env.getProfileFails with
  | none =>
      cases he : getUserEmail u st env.getEmailFails <;>
        simp only [] <;> split_ifs <;> simp_all
  | some prof =>
      cases he : getUserEmail u st env.getEmailFails <;>
      cases hcb : prof.camly_balance <;>
        simp only [hcb] <;> split_ifs <;> simp_all

-- ========== Claim C7: scope-gated claims, ID token and userinfo ==========

/-- C7: ID token and userinfo claims are gated by granted scope and stay
consistent.  For any token set produced by generateTokens, the email claim
of the ID token appears only if the space-separated scope list contains
email, name and picture only under profile, wallet_address and camly_balance
only under wallet; the userinfo response built for the same subject and
scope always carries sub and obeys the same gating; and its name, picture,
email, wallet_address and camly_balance agree claim for claim with the ID
token, so a grant of openid profile can never yield email or wallet_address
from either endpoint, whatever the profile record holds. -/
theorem scope_gated_claims (u c s : String) (n : Option String) (env : Env) (st : Store)
    (t : TokenResponse) (st2 : Store)
    (hgen : generateTokens u c s n env st = some (t, st2)) :
    (t.id_token.email ≠ none → (splitOnSpace s).contains "email" = true)
    ∧ ((t.id_token.name ≠ none ∨ t.id_token.picture ≠ none) →
      (splitOnSpace s).contains "profile" = true)
    ∧ ((t.id_token.wallet_address ≠ none ∨ t.id_token.camly_balance ≠ none) →
      (splitOnSpace s).contains "wallet" = true)
    ∧ (buildUserInfoResponse u s env st).sub = u
    ∧ ((buildUserInfoResponse u s env st).email ≠ none →
      (splitOnSpace s).contains "email" = true)
    ∧ (((buildUserInfoResponse u s env st).name ≠ none
        ∨ (buildUserInfoResponse u s env st).picture ≠ none) →
      (splitOnSpace s).contains "profile" = true)
    ∧ (((buildUserInfoResponse u s env st).wallet_address ≠ none
        ∨ (buildUserInfoResponse u s env st).camly_balance ≠ none) →
      (splitOnSpace s).contains "wallet" = true)
    ∧ (buildUserInfoResponse u s env st).name = t.id_token.name
    ∧ (buildUserInfoResponse u s env st).picture = t.id_token.picture
    ∧ (buildUserInfoResponse u s env st).email = t.id_token.email
    ∧ (buildUserInfoResponse u s env st).wallet_address = t.id_token.wallet_address
    ∧ (buildUserInfoResponse u s env st).camly_balance = t.id_token.camly_balance := by
  have hid : t.id_token = buildIDTokenClaims u c s n env st := by
    rw [(generateTokens_inv _ _ _ _ _ _ _ _ hgen).2.1]
  have hg := idclaims_gated u c s n env st
  have hc := claims_consistent u c s n env st
  rw [hid]
  refine ⟨?_, ?_, ?_, hc.1, ?_, ?_, ?_, ?_, ?_, ?_, ?_, ?_⟩
  · intro hne
    cases hcon : (splitOnSpace s).contains "email" with
    | true => rfl
    | false => exact absurd (hg.1 hcon) hne
  · intro hne
    cases hcon : (splitOnSpace s).contains "profile" with
    | true => rfl
    | false =>
        rcases hne with hne | hne
        · exact absurd (hg.2.1 hcon).1 hne
        · exact absurd (hg.2.1 hcon).2 hne
  · intro hne
    cases hcon : (splitOnSpace s).contains "wallet" with
    | true => rfl
    | false =>
        rcases hne with hne | hne
        · exact absurd (hg.2.2 hcon).1 hne
        · exact absurd (hg.2.2 hcon).2 hne
  · intro hne
    cases hcon : (splitOnSpace s).contains "email" with
    | true => rfl
    | false => exact absurd (hc.2.2.2.1.trans (hg.1 hcon)) hne
  · intro hne
    cases hcon : (splitOnSpace s).contains "profile" with
    | true => rfl
    | false =>
        rcases hne with hne | hne
        · exact absurd (hc.2.1.trans (hg.2.1 hcon).1) hne
        · exact absurd (hc.2.2.1.trans (hg.2.1 hcon).2) hne
  · intro hne
    cases hcon : (splitOnSpace s).contains "wallet" with
    | true => rfl
    | false =>
        rcases hne with hne | hne
        · exact absurd (hc.2.2.2.2.1.trans (hg.2.2 hcon).1) hne
        · exact absurd (hc.2.2.2.2.2.trans (hg.2.2 hcon).2) hne
  · exact hc.2.1
  · exact hc.2.2.1
  · exact hc.2.2.2.1
  · exact hc.2.2.2.2.1
  · exact hc.2.2.2.2.2

/-- Witness for C7: with scope openid profile over a store whose profile row
has email and wallet attributes populated, the userinfo response carries sub
and the name claim but neither email nor wallet_address, matching the token
set generated for the same grant. -/
theorem scope_gated_claims_witness :
    (buildUserInfoResponse "user1" "openid profile" env0 stProfile).sub = "user1"
    ∧ (buildUserInfoResponse "user1" "openid profile" env0 stProfile).email = none
    ∧ (buildUserInfoResponse "user1" "openid profile" env0 stProfile).wallet_address = none
    ∧ (buildUserInfoResponse "user1" "openid profile" env0 stProfile).name = some "Alice" := by
  obtain ⟨t, st2, hgen⟩ :
      ∃ t st2, generateTokens "user1" "app" "openid profile" (some "n-1") env0 stProfile =
        some (t, st2) := ⟨_, _, rfl⟩
  have h := scope_gated_claims "user1" "app" "openid profile" (some "n-1") env0 stProfile
    t st2 hgen
  refine ⟨h.2.2.2.1, ?_, ?_, by decide⟩
  · cases hem : (buildUserInfoResponse "user1" "openid profile" env0 stProfile).email with
    | none => rfl
    | some e =>
        have hcon := h.2.2.2.2.1 (by rw [hem]; simp)
        exact absurd hcon (by decide)
  · cases hwa : (buildUserInfoResponse "user1" "openid profile" env0
        stProfile).wallet_address with
    | none => rfl
    | some w =>
        have hcon := h.2.2.2.2.2.2.1 (Or.inl (by rw [hwa]; simp))
        exact absurd hcon (by decide)
